import Mathlib

/-!
Shallow embedding of the repository's location service
(`src/unnamed/part_000`, class `LocationService`, plus the redux thunk
`updateUserLocation`) and the shared types (`src/src/types/user.ts`).

The TypeScript code is single-threaded and callback-driven; we model it as
explicit state passing.  Static class fields become the `SvcState`
structure; the platform geolocation provider and the app-state listener
registry are modelled by a `World` that tracks, besides the service state,
which watch handles and listener handles are currently registered with the
platform.  Side effects (callback invocations, console logging, alerts,
platform calls) are recorded as an explicit event trace.  Subscriber
callbacks are abstract behaviours `UserLocation → CallResult` that either
return normally or throw.  JavaScript `number` fields are modelled as `Rat`
and `Date` timestamps as `Nat` milliseconds.
-/

/-- `UserLocation` from `src/src/types/user.ts`: latitude, longitude,
accuracy and a capture timestamp (a `Date`, modelled as milliseconds). -/
structure UserLocation where
  latitude : Rat
  longitude : Rat
  accuracy : Rat
  timestamp : Nat
deriving DecidableEq, Repr

/-- `LocationErrorType` from `src/unnamed/part_000` (the four-variant enum). -/
inductive LocationErrorType where
  | PERMISSION_DENIED
  | LOCATION_UNAVAILABLE
  | TIMEOUT
  | UNKNOWN
deriving DecidableEq, Repr

/-- `LocationError` from `src/unnamed/part_000`: mapped error kind, human
message, and the optional originating platform code. -/
structure LocationError where
  type : LocationErrorType
  message : String
  code : Option Int
deriving DecidableEq, Repr

/-- A raw platform geolocation error, as handed to the error callbacks:
`error.code` and `error.message` are both possibly absent (`any`-typed). -/
structure GeoError where
  code : Option Int
  message : Option String
deriving DecidableEq, Repr

/-- JavaScript `a || b` specialised to an optional string: the fallback is
used when `a` is absent or the empty string (both falsy). -/
def jsOrString (a : Option String) (b : String) : String :=
  match a with
  | some s => if s = "" then b else s
  | none => b

/-- `LocationService.mapGeolocationError`: the `switch (error.code)` with
cases 1, 2, 3 and a default, translated to the equivalent test chain. -/
def mapGeolocationError (error : GeoError) : LocationError :=
  if error.code = some 1 then
    { type := LocationErrorType.PERMISSION_DENIED
      message := "Location permission denied"
      code := error.code }
  else if error.code = some 2 then
    { type := LocationErrorType.LOCATION_UNAVAILABLE
      message := "Location unavailable"
      code := error.code }
  else if error.code = some 3 then
    { type := LocationErrorType.TIMEOUT
      message := "Location request timed out"
      code := error.code }
  else
    { type := LocationErrorType.UNKNOWN
      message := jsOrString error.message "Unknown location error"
      code := error.code }

/-- Outcome of invoking a subscriber callback: it returns normally or
throws. -/
inductive CallResult where
  | ok
  | threw
deriving DecidableEq, Repr

/-- A subscriber callback: `tag` is the identity of the function object
(used to record invocations in the trace), `run` its behaviour. -/
structure Handler where
  tag : Nat
  run : UserLocation → CallResult

/-- `LocationCallback` from `src/unnamed/part_000`: a subscription entry
`{ id, callback }`. -/
structure LocationCallback where
  id : String
  callback : Handler

/-- Observable effects of the service, recorded as a trace. -/
inductive Event where
  | invoke (tag : Nat) (loc : UserLocation)
  | log (msg : String)
  | warn (msg : String)
  | alert (title : String) (message : String)
  | clearWatch (handle : Nat)
  | watchPosition (handle : Nat)
  | addListener (handle : Nat)
  | removeListener (handle : Nat)
deriving DecidableEq, Repr

/-- The invocation sub-trace of an event list: which handler was called
with which position, in order. -/
def invocations (events : List Event) : List (Nat × UserLocation) :=
  events.filterMap fun e =>
    match e with
    | Event.invoke t l => some (t, l)
    | _ => none

/-- `LocationService.notifyCallbacks`: `forEach` over the subscription
list, each call wrapped in `try`/`catch` whose `catch` only logs, so the
iteration always continues to the next subscriber. -/
def notifyCallbacks (callbacks : List LocationCallback) (location : UserLocation) :
    List Event :=
  callbacks.flatMap fun s =>
    match s.callback.run location with
    | CallResult.ok => [Event.invoke s.callback.tag location]
    | CallResult.threw =>
        [Event.invoke s.callback.tag location, Event.log "Error in location callback:"]

/-- `LocationService.showLocationError`: picks the alert title and message
from the mapped error kind and shows the alert. -/
def showLocationError (error : LocationError) : Event :=
  match error.type with
  | LocationErrorType.PERMISSION_DENIED =>
      Event.alert "Permission Required"
        "Please enable location permissions in your device settings."
  | LocationErrorType.LOCATION_UNAVAILABLE =>
      Event.alert "Location Error"
        "Unable to determine your location. Please check your GPS settings."
  | LocationErrorType.TIMEOUT =>
      Event.alert "Location Error" "Location request timed out. Please try again."
  | LocationErrorType.UNKNOWN => Event.alert "Location Error" error.message

/-- The static fields of `class LocationService`. -/
structure SvcState where
  watchId : Option Nat
  callbacks : List LocationCallback
  isInitialized : Bool
  appStateSubscription : Option Nat
  lastKnownLocation : Option UserLocation

/-- The service state together with the platform's view: which watch
handles and app-state listener handles are currently registered, and
counters supplying fresh handles. -/
structure World where
  svc : SvcState
  activeWatches : List Nat
  activeListeners : List Nat
  nextHandle : Nat
  nextListenerHandle : Nat

/-- The state at process start: all static fields at their initialisers. -/
def initialWorld : World :=
  { svc :=
      { watchId := none
        callbacks := []
        isInitialized := false
        appStateSubscription := none
        lastKnownLocation := none }
    activeWatches := []
    activeListeners := []
    nextHandle := 0
    nextListenerHandle := 0 }

/-- `LocationService.stopLocationTracking`: if a watch is held, clear it
with the platform and null the handle; otherwise do nothing. -/
def stopLocationTracking (w : World) : World × List Event :=
  match w.svc.watchId with
  | some h =>
      ({ w with
          svc := { w.svc with watchId := none }
          activeWatches := w.activeWatches.erase h },
        [Event.clearWatch h])
  | none => (w, [])

/-- The synchronous registration part of
`LocationService.startLocationTracking`: stop any existing watch first,
then register a fresh watch with the platform and store its handle.
(The promise returned by the full call settles only on the watch's first
delivery; see `watchFirstDelivery`.) -/
def startLocationTracking_register (w : World) : World × List Event :=
  let s :=
    match w.svc.watchId with
    | some _ => stopLocationTracking w
    | none => (w, [])
  let h := s.1.nextHandle
  ({ s.1 with
      svc := { s.1.svc with watchId := some h }
      activeWatches := s.1.activeWatches ++ [h]
      nextHandle := h + 1 },
    s.2 ++ [Event.watchPosition h])

/-- A raw position as delivered by the platform watch. -/
structure RawCoords where
  latitude : Rat
  longitude : Rat
  accuracy : Rat
deriving DecidableEq, Repr

/-- A raw platform fix: coordinates plus the fix timestamp. -/
structure RawPosition where
  coords : RawCoords
  timestamp : Nat
deriving DecidableEq, Repr

/-- The first thing the watch delivers: a position or an error. -/
inductive Delivery where
  | pos (p : RawPosition)
  | err (e : GeoError)
deriving DecidableEq, Repr

/-- The watch success callback in `startLocationTracking`: build the
`UserLocation`, store it as last known, notify subscribers. -/
def watchOnSuccess (w : World) (p : RawPosition) : World × List Event :=
  let location : UserLocation :=
    { latitude := p.coords.latitude
      longitude := p.coords.longitude
      accuracy := p.coords.accuracy
      timestamp := p.timestamp }
  ({ w with svc := { w.svc with lastKnownLocation := some location } },
    notifyCallbacks w.svc.callbacks location)

/-- The watch error callback in `startLocationTracking`: log, map the
platform error, show the user-facing alert; state is left untouched. -/
def watchOnError (w : World) (e : GeoError) : World × List Event × LocationError :=
  let locationError := mapGeolocationError e
  (w, [Event.log "Location tracking error:", showLocationError locationError],
    locationError)

/-- The settling of `startLocationTracking`'s promise on the watch's first
delivery: a position resolves it (after storing last-known and notifying),
an error rejects it with the mapped error (after showing the alert). -/
def watchFirstDelivery (w : World) (d : Delivery) :
    World × List Event × Except LocationError Unit :=
  match d with
  | Delivery.pos p =>
      let s := watchOnSuccess w p
      (s.1, s.2, Except.ok ())
  | Delivery.err e =>
      let s := watchOnError w e
      (s.1, s.2.1, Except.error s.2.2)

/-- `LocationService.startLocationTracking` as awaited by a caller:
register the watch, then wait for its first delivery, which settles the
returned promise. -/
def startLocationTracking (w : World) (d : Delivery) :
    World × List Event × Except LocationError Unit :=
  let r := startLocationTracking_register w
  let f := watchFirstDelivery r.1 d
  (f.1, r.2 ++ f.2.1, f.2.2)

/-- The environment observed by one `addLocationCallback` call:
`Date.now()` in milliseconds and the string
`Math.random().toString(36).substr(2, 9)` (nine base-36 characters). -/
structure IdEnv where
  nowMs : Nat
  randSuffix : String
deriving DecidableEq, Repr

/-- The id built by `addLocationCallback`:
`Date.now().toString() + Math.random().toString(36).substr(2, 9)`. -/
def genCallbackId (env : IdEnv) : String :=
  toString env.nowMs ++ env.randSuffix

/-- `LocationService.addLocationCallback`: generate an id, push the
subscription, and if a last known location exists invoke the new callback
with it immediately — with no `try`/`catch`, so a throw from the callback
propagates out of `addLocationCallback` (after the push) instead of the
id being returned. -/
def addLocationCallback (w : World) (h : Handler) (env : IdEnv) :
    World × List Event × Except Unit String :=
  let id := genCallbackId env
  let w1 :=
    { w with
        svc := { w.svc with callbacks := w.svc.callbacks ++ [{ id := id, callback := h }] } }
  match w.svc.lastKnownLocation with
  | some loc =>
      match h.run loc with
      | CallResult.ok => (w1, [Event.invoke h.tag loc], Except.ok id)
      | CallResult.threw => (w1, [Event.invoke h.tag loc], Except.error ())
  | none => (w1, [], Except.ok id)

/-- `LocationService.removeLocationCallback`: keep entries whose id
differs. -/
def removeLocationCallback (w : World) (callbackId : String) : World :=
  { w with
      svc := { w.svc with callbacks := w.svc.callbacks.filter fun item => item.id ≠ callbackId } }

/-- `LocationService.clearAllCallbacks`. -/
def clearAllCallbacks (w : World) : World :=
  { w with svc := { w.svc with callbacks := [] } }

/-- `LocationService.getLastKnownLocation`: pure accessor. -/
def getLastKnownLocation (w : World) : Option UserLocation :=
  w.svc.lastKnownLocation

/-- `LocationService.setupAppStateListener`: register a listener with the
platform and store its subscription handle. -/
def setupAppStateListener (w : World) : World × List Event :=
  let l := w.nextListenerHandle
  ({ w with
      svc := { w.svc with appStateSubscription := some l }
      activeListeners := w.activeListeners ++ [l]
      nextListenerHandle := l + 1 },
    [Event.addListener l])

/-- `LocationService.removeAppStateListener`: if a subscription is held,
remove it from the platform and null it. -/
def removeAppStateListener (w : World) : World × List Event :=
  match w.svc.appStateSubscription with
  | some l =>
      ({ w with
          svc := { w.svc with appStateSubscription := none }
          activeListeners := w.activeListeners.erase l },
        [Event.removeListener l])
  | none => (w, [])

/-- `LocationService.cleanup`: stop tracking, clear subscriptions, remove
the app-state listener, reset the flag and the last known location. -/
def cleanup (w : World) : World × List Event :=
  let s := stopLocationTracking w
  let w2 := clearAllCallbacks s.1
  let r := removeAppStateListener w2
  ({ r.1 with
      svc := { r.1.svc with isInitialized := false, lastKnownLocation := none } },
    s.2 ++ r.2)

/-- Errors thrown out of `LocationService.initialize`. -/
inductive InitError where
  | permissionDenied (msg : String)
  | tracking (e : LocationError)
deriving DecidableEq, Repr

/-- `LocationService.initialize` (named `initService` here): the
idempotence guard, then permission request (its boolean outcome is the
`hasPermission` argument), then `await startLocationTracking()` whose
first delivery is `d`, then listener setup and setting the flag.  The
`catch` logs and rethrows. -/
def initService (w : World) (hasPermission : Bool) (d : Delivery) :
    World × List Event × Except InitError Unit :=
  if w.svc.isInitialized then
    (w, [Event.warn "LocationService already initialized"], Except.ok ())
  else if hasPermission then
    let r := startLocationTracking w d
    match r.2.2 with
    | Except.ok _ =>
        let s := setupAppStateListener r.1
        ({ s.1 with svc := { s.1.svc with isInitialized := true } },
          r.2.1 ++ s.2, Except.ok ())
    | Except.error e =>
        (r.1, r.2.1 ++ [Event.log "Failed to initialize LocationService:"],
          Except.error (InitError.tracking e))
  else
    (w, [Event.log "Failed to initialize LocationService:"],
      Except.error (InitError.permissionDenied "Location permission denied"))

/-- `updateUserLocation`'s helper `createUserLocationWithTimestamp`:
copy latitude/longitude, default accuracy to 0, timestamp the call time. -/
def createUserLocationWithTimestamp (latitude longitude : Rat) (now : Nat) :
    UserLocation :=
  { latitude := latitude
    longitude := longitude
    accuracy := 0
    timestamp := now }

/-- What the backend `userApi.updateLocation` call can throw: a JS `Error`
carrying a message, or any other raw value. -/
inductive BackendFailure where
  | err (message : String)
  | raw (tag : Nat)
deriving DecidableEq, Repr

/-- The thunk `updateUserLocation`: build the position, call the backend
(whose outcome is the `backend` argument); on success return the position,
on failure reject with the error's message when it is an `Error`, else
with the fixed fallback string. -/
def updateUserLocation (latitude longitude : Rat) (now : Nat)
    (backend : Except BackendFailure Unit) : Except String UserLocation :=
  let userLocation := createUserLocationWithTimestamp latitude longitude now
  match backend with
  | Except.ok _ => Except.ok userLocation
  | Except.error (BackendFailure.err m) => Except.error m
  | Except.error (BackendFailure.raw _) => Except.error "Failed to update location"

/-- The watch-handle / listener-handle bookkeeping invariant: the platform
holds exactly the watch the service references (none otherwise), and
likewise for the app-state listener. -/
def HandleInv (w : World) : Prop :=
  w.activeWatches = w.svc.watchId.elim [] (fun h => [h]) ∧
  w.activeListeners = w.svc.appStateSubscription.elim [] (fun l => [l])

/-- Tracking operations a caller can issue (for the watch-uniqueness
claim the settling of the promise is irrelevant: only the registration
part touches the handles). -/
inductive TrackOp where
  | start
  | stop
deriving DecidableEq, Repr

/-- Apply one tracking operation to the world. -/
def applyTrackOp (w : World) (op : TrackOp) : World :=
  match op with
  | TrackOp.start => (startLocationTracking_register w).1
  | TrackOp.stop => (stopLocationTracking w).1

/-- Run a sequence of tracking operations. -/
def runTrackOps (w : World) (ops : List TrackOp) : World :=
  ops.foldl applyTrackOp w

/-- A subscriber that always returns normally. -/
def alwaysOk (tag : Nat) : Handler :=
  { tag := tag, run := fun _ => CallResult.ok }

/-- A subscriber that always throws. -/
def alwaysThrows (tag : Nat) : Handler :=
  { tag := tag, run := fun _ => CallResult.threw }

/-- A sample position used to instantiate theorems. -/
def demoLoc : UserLocation :=
  { latitude := 37, longitude := -122, accuracy := 5, timestamp := 1000 }

/-- Helper: the invocation trace of `notifyCallbacks` is exactly one
invocation per subscriber, in list order, with the delivered location. -/
lemma invocations_notifyCallbacks (callbacks : List LocationCallback)
    (loc : UserLocation) :
    invocations (notifyCallbacks callbacks loc) =
      callbacks.map fun s => (s.callback.tag, loc) := by
  induction callbacks with
  | nil => rfl
  | cons s rest ih =>
      cases h : s.callback.run loc <;>
        simp [notifyCallbacks, invocations, h] at ih ⊢ <;>
        exact ih

/-- C1: for every subscription list and delivered position,
`notifyCallbacks` invokes each registered handler exactly once with that
position, in registration (list) order — also when some handlers throw,
since each call is wrapped in a `try`/`catch` that only logs — and a
throwing handler produces a log entry. -/
theorem C1_notifyCallbacks_once_each_in_order (callbacks : List LocationCallback)
    (loc : UserLocation) :
    invocations (notifyCallbacks callbacks loc) =
      (callbacks.map fun s => (s.callback.tag, loc)) ∧
    ∀ s ∈ callbacks, s.callback.run loc = CallResult.threw →
      Event.log "Error in location callback:" ∈ notifyCallbacks callbacks loc := by
  refine ⟨invocations_notifyCallbacks callbacks loc, ?_⟩
  intro s hs hthrew
  refine List.mem_flatMap.mpr ⟨s, hs, ?_⟩
  simp [hthrew]

/-- C1 witness: a three-subscriber list whose middle subscriber throws is
still notified in order, once each, and the throw is logged. -/
theorem C1_witness :
    invocations (notifyCallbacks
        [{ id := "a", callback := alwaysOk 0 },
         { id := "b", callback := alwaysThrows 1 },
         { id := "c", callback := alwaysOk 2 }] demoLoc) =
      [(0, demoLoc), (1, demoLoc), (2, demoLoc)] ∧
    Event.log "Error in location callback:" ∈ notifyCallbacks
        [{ id := "a", callback := alwaysOk 0 },
         { id := "b", callback := alwaysThrows 1 },
         { id := "c", callback := alwaysOk 2 }] demoLoc := by
  have h := C1_notifyCallbacks_once_each_in_order
    [{ id := "a", callback := alwaysOk 0 },
     { id := "b", callback := alwaysThrows 1 },
     { id := "c", callback := alwaysOk 2 }] demoLoc
  exact ⟨by rw [h.1]; rfl,
    h.2 { id := "b", callback := alwaysThrows 1 } (by simp) rfl⟩

/-- C2: `mapGeolocationError` is a total function of the platform error:
it always preserves the original code; codes 1, 2, 3 map to
PERMISSION_DENIED, LOCATION_UNAVAILABLE, TIMEOUT with their fixed
messages; every other code maps to UNKNOWN carrying the platform-supplied
message when one is present (JS-truthy, i.e. nonempty), and the fallback
message otherwise. -/
theorem C2_mapGeolocationError_total_mapping (e : GeoError) :
    (mapGeolocationError e).code = e.code ∧
    (e.code = some 1 →
      (mapGeolocationError e).type = LocationErrorType.PERMISSION_DENIED ∧
      (mapGeolocationError e).message = "Location permission denied") ∧
    (e.code = some 2 →
      (mapGeolocationError e).type = LocationErrorType.LOCATION_UNAVAILABLE ∧
      (mapGeolocationError e).message = "Location unavailable") ∧
    (e.code = some 3 →
      (mapGeolocationError e).type = LocationErrorType.TIMEOUT ∧
      (mapGeolocationError e).message = "Location request timed out") ∧
    (e.code ≠ some 1 → e.code ≠ some 2 → e.code ≠ some 3 →
      (mapGeolocationError e).type = LocationErrorType.UNKNOWN ∧
      (∀ m, e.message = some m → m ≠ "" → (mapGeolocationError e).message = m) ∧
      ((e.message = none ∨ e.message = some "") →
        (mapGeolocationError e).message = "Unknown location error")) := by
  unfold mapGeolocationError
  split_ifs with h1 h2 h3
  · refine ⟨rfl, fun _ => ⟨rfl, rfl⟩, ?_, ?_, ?_⟩ <;> simp_all
  · refine ⟨rfl, ?_, fun _ => ⟨rfl, rfl⟩, ?_, ?_⟩ <;> simp_all
  · refine ⟨rfl, ?_, ?_, fun _ => ⟨rfl, rfl⟩, ?_⟩ <;> simp_all
  · refine ⟨rfl, ?_, ?_, ?_, fun _ _ _ => ⟨rfl, ?_, ?_⟩⟩
    · exact fun hc => absurd hc h1
    · exact fun hc => absurd hc h2
    · exact fun hc => absurd hc h3
    · intro m hm hne
      simp [jsOrString, hm, hne]
    · rintro (hm | hm) <;> simp [jsOrString, hm]

/-- C2 witness: an unknown code 99 with message "boom" maps to UNKNOWN,
keeps the message and the code. -/
theorem C2_witness :
    (mapGeolocationError { code := some 99, message := some "boom" }).code = some 99 ∧
    (mapGeolocationError { code := some 99, message := some "boom" }).type =
      LocationErrorType.UNKNOWN ∧
    (mapGeolocationError { code := some 99, message := some "boom" }).message = "boom" := by
  have h := C2_mapGeolocationError_total_mapping { code := some 99, message := some "boom" }
  have hu := h.2.2.2.2 (by decide) (by decide) (by decide)
  exact ⟨h.1, hu.1, hu.2.1 "boom" rfl (by decide)⟩

/-- Helper: stopping tracking nulls the stored watch handle. -/
lemma watchId_stop (w : World) : (stopLocationTracking w).1.svc.watchId = none := by
  rcases hw0 : w.svc.watchId with _ | h <;> simp [stopLocationTracking, hw0]

/-- Helper: `stopLocationTracking` preserves the handle invariant. -/
lemma HandleInv_stop (w : World) (hw : HandleInv w) :
    HandleInv (stopLocationTracking w).1 := by
  obtain ⟨ha, hb⟩ := hw
  rcases hw0 : w.svc.watchId with _ | h
  · simp only [stopLocationTracking, hw0]
    exact ⟨by simpa [hw0] using ha, hb⟩
  · simp only [stopLocationTracking, hw0]
    exact ⟨by simp [ha, hw0], hb⟩

/-- Helper: after the registration part of `startLocationTracking` the
service always holds some watch handle. -/
lemma watchId_start (w : World) :
    ∃ h, (startLocationTracking_register w).1.svc.watchId = some h := by
  rcases hw0 : w.svc.watchId with _ | h <;>
    simp [startLocationTracking_register, stopLocationTracking, hw0]

/-- Helper: the registration part of `startLocationTracking` preserves the
handle invariant (it stops any prior watch before registering). -/
lemma HandleInv_start (w : World) (hw : HandleInv w) :
    HandleInv (startLocationTracking_register w).1 := by
  rcases hw0 : w.svc.watchId with _ | h
  · obtain ⟨ha, hb⟩ := hw
    refine ⟨?_, ?_⟩ <;> simp [startLocationTracking_register, hw0, ha, hb]
  · obtain ⟨ha, hb⟩ := HandleInv_stop w hw
    have hsw := watchId_stop w
    refine ⟨?_, ?_⟩ <;>
      simp only [startLocationTracking_register, hw0] <;>
      simp [ha, hb, hsw]

/-- Helper: the handle invariant is preserved by any sequence of
start/stop tracking operations. -/
lemma HandleInv_runTrackOps (ops : List TrackOp) :
    ∀ w : World, HandleInv w → HandleInv (runTrackOps w ops) := by
  induction ops with
  | nil => exact fun w hw => hw
  | cons op rest ih =>
      intro w hw
      have hstep : HandleInv (applyTrackOp w op) := by
        cases op
        · exact HandleInv_start w hw
        · exact HandleInv_stop w hw
      exact ih (applyTrackOp w op) hstep

/-- C3: from any state satisfying the handle invariant, every sequence of
start/stop tracking operations preserves it; two starts in succession
leave exactly one active watch; when a watch is held, starting first
clears the prior handle and only then registers the new one; and the
platform holds exactly the watch referenced by `watchId` (none when it is
null), so `watchId` is non-null only while a watch is active. -/
theorem C3_at_most_one_watch (w : World) (hw : HandleInv w) (ops : List TrackOp) :
    HandleInv (runTrackOps w ops) ∧
    (runTrackOps w [TrackOp.start, TrackOp.start]).activeWatches.length = 1 ∧
    (∀ h, w.svc.watchId = some h →
      (startLocationTracking_register w).2 =
        [Event.clearWatch h, Event.watchPosition w.nextHandle]) ∧
    (∀ h, (runTrackOps w ops).svc.watchId = some h →
      (runTrackOps w ops).activeWatches = [h]) ∧
    ((runTrackOps w ops).svc.watchId = none → (runTrackOps w ops).activeWatches = []) := by
  have hinv := HandleInv_runTrackOps ops w hw
  refine ⟨hinv, ?_, ?_, ?_, ?_⟩
  · have h2 := HandleInv_runTrackOps [TrackOp.start, TrackOp.start] w hw
    obtain ⟨h, hh⟩ := watchId_start (applyTrackOp w TrackOp.start)
    have hrw : runTrackOps w [TrackOp.start, TrackOp.start] =
        (startLocationTracking_register (applyTrackOp w TrackOp.start)).1 := rfl
    rw [hrw] at h2 ⊢
    rw [h2.1, hh]
    rfl
  · intro h hw0
    simp [startLocationTracking_register, stopLocationTracking, hw0]
  · intro h hh
    rw [hinv.1, hh]
    rfl
  · intro hh
    rw [hinv.1, hh]
    rfl

/-- C3 witness: starting twice from the initial state leaves exactly one
active watch handle. -/
theorem C3_witness :
    (runTrackOps initialWorld [TrackOp.start, TrackOp.start]).activeWatches.length = 1 :=
  (C3_at_most_one_watch initialWorld ⟨rfl, rfl⟩ [TrackOp.start, TrackOp.start]).2.1

/-- Helper: a watch whose first delivery is an error settles
`startLocationTracking` with the mapped error, after the alert; the world
is the one produced by the registration part. -/
lemma startLocationTracking_err (w : World) (e : GeoError) :
    startLocationTracking w (Delivery.err e) =
      ((startLocationTracking_register w).1,
        (startLocationTracking_register w).2 ++
          [Event.log "Location tracking error:",
            showLocationError (mapGeolocationError e)],
        Except.error (mapGeolocationError e)) := rfl

/-- Helper: the registration part of `startLocationTracking` only touches
the watch handle and its counter. -/
lemma startLocationTracking_register_preserves (w : World) :
    (startLocationTracking_register w).1.svc.isInitialized = w.svc.isInitialized ∧
    (startLocationTracking_register w).1.svc.appStateSubscription =
      w.svc.appStateSubscription ∧
    (startLocationTracking_register w).1.activeListeners = w.activeListeners ∧
    (startLocationTracking_register w).1.svc.lastKnownLocation =
      w.svc.lastKnownLocation ∧
    (startLocationTracking_register w).1.svc.callbacks = w.svc.callbacks := by
  rcases hw0 : w.svc.watchId with _ | h <;>
    simp [startLocationTracking_register, stopLocationTracking, hw0]

/-- C4 counterexample: from the pristine initial state, an `initialize`
whose first tracking delivery errors (code 2) propagates the error — but
the resulting state still holds the watch handle registered by
`startLocationTracking` (`watchId = some 0`), whereas before the call
`watchId` was `null`; the state is not equivalent to the pre-call state. -/
theorem C4_counterexample :
    (initService initialWorld true
        (Delivery.err { code := some 2, message := none })).2.2 =
      Except.error (InitError.tracking
        { type := LocationErrorType.LOCATION_UNAVAILABLE
          message := "Location unavailable"
          code := some 2 }) ∧
    (initService initialWorld true
        (Delivery.err { code := some 2, message := none })).1.svc.watchId = some 0 ∧
    initialWorld.svc.watchId = none ∧
    (some 0 : Option Nat) ≠ none := by
  exact ⟨rfl, rfl, rfl, by decide⟩

/-- C4 amended: `initialize` is idempotence-guarded (already initialized
returns immediately, state untouched); permission denial throws
'Location permission denied' leaving the state exactly as before the call
(so `isInitialized` stays false); a failure of the first tracking outcome
propagates to the caller with `isInitialized` still false, no lifecycle
listener installed, and the last known location untouched — but, unlike
the original claim, the watch handle registered by `startLocationTracking`
is retained (`watchId` is non-null after such a failure). -/
theorem C4_amended_fails_closed_except_watch_handle (w : World) (d : Delivery) :
    (∀ hasPermission : Bool, w.svc.isInitialized = true →
      initService w hasPermission d =
        (w, [Event.warn "LocationService already initialized"], Except.ok ())) ∧
    (w.svc.isInitialized = false →
      initService w false d =
        (w, [Event.log "Failed to initialize LocationService:"],
          Except.error (InitError.permissionDenied "Location permission denied"))) ∧
    (∀ e : GeoError, w.svc.isInitialized = false →
      (initService w true (Delivery.err e)).2.2 =
        Except.error (InitError.tracking (mapGeolocationError e)) ∧
      (initService w true (Delivery.err e)).1.svc.isInitialized = false ∧
      (initService w true (Delivery.err e)).1.svc.appStateSubscription =
        w.svc.appStateSubscription ∧
      (initService w true (Delivery.err e)).1.activeListeners = w.activeListeners ∧
      (initService w true (Delivery.err e)).1.svc.lastKnownLocation =
        w.svc.lastKnownLocation ∧
      (initService w true (Delivery.err e)).1.svc.watchId ≠ none) := by
  refine ⟨?_, ?_, ?_⟩
  · intro b h
    simp [initService, h]
  · intro h
    simp [initService, h]
  · intro e h
    have hp := startLocationTracking_register_preserves w
    obtain ⟨hid, hw⟩ := watchId_start w
    have hinit : initService w true (Delivery.err e) =
        ((startLocationTracking_register w).1,
          (startLocationTracking_register w).2 ++
            [Event.log "Location tracking error:",
              showLocationError (mapGeolocationError e),
              Event.log "Failed to initialize LocationService:"],
          Except.error (InitError.tracking (mapGeolocationError e))) := by
      simp [initService, h, startLocationTracking_err w e]
    rw [hinit]
    exact ⟨rfl, hp.1.trans h, hp.2.1, hp.2.2.1, hp.2.2.2.1, by simp [hw]⟩

/-- C4 amended witness: the failing-tracking instance from the initial
state — the error propagates, the flag stays false, yet the watch handle
is retained. -/
theorem C4_amended_witness :
    (initService initialWorld true
        (Delivery.err { code := some 2, message := none })).2.2 =
      Except.error (InitError.tracking
        (mapGeolocationError { code := some 2, message := none })) ∧
    (initService initialWorld true
        (Delivery.err { code := some 2, message := none })).1.svc.isInitialized = false ∧
    (initService initialWorld true
        (Delivery.err { code := some 2, message := none })).1.svc.watchId ≠ none := by
  have h := (C4_amended_fails_closed_except_watch_handle initialWorld
      (Delivery.err { code := some 2, message := none })).2.2
      { code := some 2, message := none } rfl
  exact ⟨h.1, h.2.1, h.2.2.2.2.2⟩

/-- A sample world that already holds a last known location. -/
def demoWorld : World :=
  { initialWorld with
      svc := { initialWorld.svc with lastKnownLocation := some demoLoc } }

/-- C5: when a last known location exists, `addLocationCallback` invokes
the new handler synchronously during the call (hence before returning and
before any subsequent delivery) with exactly that location, and invokes
nothing else; when none exists the handler is not invoked at
registration. -/
theorem C5_subscribe_immediate_snapshot (w : World) (h : Handler) (env : IdEnv) :
    (∀ loc, w.svc.lastKnownLocation = some loc →
      (addLocationCallback w h env).2.1 = [Event.invoke h.tag loc]) ∧
    (w.svc.lastKnownLocation = none → (addLocationCallback w h env).2.1 = []) := by
  constructor
  · intro loc hl
    cases hr : h.run loc <;> simp [addLocationCallback, hl, hr]
  · intro hl
    simp [addLocationCallback, hl]

/-- C5 witness: registering on a world with a stored location fires the
handler once with that location, immediately. -/
theorem C5_witness :
    (addLocationCallback demoWorld (alwaysOk 7)
        { nowMs := 1, randSuffix := "abcdefghi" }).2.1 =
      [Event.invoke 7 demoLoc] :=
  (C5_subscribe_immediate_snapshot demoWorld (alwaysOk 7)
      { nowMs := 1, randSuffix := "abcdefghi" }).1 demoLoc rfl

/-- C6 counterexample: two distinct registrations (the subscription list
grows to two entries) that observe the same `Date.now()` millisecond and
the same random suffix are handed the very same id, refuting "ids are
unique across all registrations". -/
theorem C6_counterexample :
    (addLocationCallback initialWorld (alwaysOk 0)
        { nowMs := 1, randSuffix := "abcdefghi" }).2.2 =
      Except.ok "1abcdefghi" ∧
    (addLocationCallback
        (addLocationCallback initialWorld (alwaysOk 0)
          { nowMs := 1, randSuffix := "abcdefghi" }).1 (alwaysOk 1)
        { nowMs := 1, randSuffix := "abcdefghi" }).2.2 =
      Except.ok "1abcdefghi" ∧
    (addLocationCallback
        (addLocationCallback initialWorld (alwaysOk 0)
          { nowMs := 1, randSuffix := "abcdefghi" }).1 (alwaysOk 1)
        { nowMs := 1, randSuffix := "abcdefghi" }).1.svc.callbacks.length = 2 :=
  ⟨rfl, rfl, rfl⟩

/-- Helper: string concatenation is injective once the right parts have
equal length. -/
lemma string_append_inj (a b c d : String) (hbd : b.length = d.length)
    (h : a ++ b = c ++ d) : a = c ∧ b = d := by
  have hdata : a.data ++ b.data = c.data ++ d.data := by
    simpa [String.data_append] using congrArg String.data h
  obtain ⟨h1, h2⟩ := List.append_inj' hdata hbd
  constructor
  · cases a; cases c; exact congrArg String.mk h1
  · cases b; cases d; exact congrArg String.mk h2

/-- C6 amended: with the fixed nine-character random suffix, two
registrations are handed equal ids exactly when their observed draws
render identically — the decimal timestamp strings coincide and the
random suffixes coincide.  Distinct draws give distinct ids, but nothing
prevents two calls from observing the same draw, so uniqueness is not
guaranteed (see the counterexample). -/
theorem C6_amended_id_collision_iff_same_draw (e1 e2 : IdEnv)
    (h1 : e1.randSuffix.length = 9) (h2 : e2.randSuffix.length = 9) :
    genCallbackId e1 = genCallbackId e2 ↔
      (toString e1.nowMs = toString e2.nowMs ∧ e1.randSuffix = e2.randSuffix) := by
  constructor
  · intro h
    exact string_append_inj _ _ _ _ (h1.trans h2.symm) h
  · rintro ⟨ha, hb⟩
    unfold genCallbackId
    rw [ha, hb]

/-- C6 amended witness: two draws in the same millisecond with suffixes
differing in their last character produce distinct ids. -/
theorem C6_amended_witness :
    (genCallbackId { nowMs := 1, randSuffix := "abcdefghi" } =
        genCallbackId { nowMs := 1, randSuffix := "abcdefghj" }) ↔
      (toString (({ nowMs := 1, randSuffix := "abcdefghi" } : IdEnv).nowMs) =
          toString (({ nowMs := 1, randSuffix := "abcdefghj" } : IdEnv).nowMs) ∧
        ({ nowMs := 1, randSuffix := "abcdefghi" } : IdEnv).randSuffix =
          ({ nowMs := 1, randSuffix := "abcdefghj" } : IdEnv).randSuffix) :=
  C6_amended_id_collision_iff_same_draw
    { nowMs := 1, randSuffix := "abcdefghi" }
    { nowMs := 1, randSuffix := "abcdefghj" }
    (by decide) (by decide)

/-- C10: the snapshot invocation in `addLocationCallback` is not
fault-isolated: with a stored last known location and a handler that
throws on it, the call ends in the propagated exception (no id is
returned), yet the subscription was already appended, so the handler is
still invoked on every future delivery. -/
theorem C10_snapshot_throw_propagates (w : World) (h : Handler) (env : IdEnv)
    (loc : UserLocation) (hl : w.svc.lastKnownLocation = some loc)
    (ht : h.run loc = CallResult.threw) :
    (addLocationCallback w h env).2.2 = Except.error () ∧
    (addLocationCallback w h env).1.svc.callbacks =
      w.svc.callbacks ++ [{ id := genCallbackId env, callback := h }] ∧
    ∀ loc2 : UserLocation,
      (h.tag, loc2) ∈
        invocations (notifyCallbacks
          (addLocationCallback w h env).1.svc.callbacks loc2) := by
  have hcb : (addLocationCallback w h env).1.svc.callbacks =
      w.svc.callbacks ++ [{ id := genCallbackId env, callback := h }] := by
    simp [addLocationCallback, hl, ht]
  refine ⟨by simp [addLocationCallback, hl, ht], hcb, ?_⟩
  intro loc2
  rw [hcb, invocations_notifyCallbacks, List.map_append]
  exact List.mem_append_right _ (by simp)

/-- C10 witness: a throwing subscriber registered on a world with a
stored location makes the registration call fail, yet it is notified on
the next delivery. -/
theorem C10_witness :
    (addLocationCallback demoWorld (alwaysThrows 3)
        { nowMs := 1, randSuffix := "abcdefghi" }).2.2 = Except.error () ∧
    (3, demoLoc) ∈
      invocations (notifyCallbacks
        (addLocationCallback demoWorld (alwaysThrows 3)
          { nowMs := 1, randSuffix := "abcdefghi" }).1.svc.callbacks demoLoc) := by
  have h := C10_snapshot_throw_propagates demoWorld (alwaysThrows 3)
    { nowMs := 1, randSuffix := "abcdefghi" } demoLoc rfl rfl
  exact ⟨h.1, h.2.2 demoLoc⟩

/-- Helper: under the handle invariant, `cleanup` drives the whole world
to the clean state (only the fresh-handle counters survive). -/
lemma cleanup_eq_clean (w : World) (hw : HandleInv w) :
    (cleanup w).1 =
      { svc :=
          { watchId := none
            callbacks := []
            isInitialized := false
            appStateSubscription := none
            lastKnownLocation := none }
        activeWatches := []
        activeListeners := []
        nextHandle := w.nextHandle
        nextListenerHandle := w.nextListenerHandle } := by
  obtain ⟨ha, hb⟩ := hw
  rcases hw0 : w.svc.watchId with _ | h <;>
    rcases hs0 : w.svc.appStateSubscription with _ | l <;>
      simp [cleanup, stopLocationTracking, clearAllCallbacks,
        removeAppStateListener, hw0, hs0, ha, hb]

/-- C7: under the handle invariant, `cleanup` fully reverses
`initialize`: afterwards no watch handle is held (by the service or the
platform), the subscription list is empty, the lifecycle listener is
gone, the initialized flag is false and `getLastKnownLocation` returns
none; running `cleanup` again changes nothing, and `initialize` from the
cleaned state (permission granted, first delivery a position) succeeds
and marks the service initialized again. -/
theorem C7_cleanup_full_reversal (w : World) (hw : HandleInv w) (p : RawPosition) :
    (cleanup w).1.svc.watchId = none ∧
    (cleanup w).1.svc.callbacks = [] ∧
    (cleanup w).1.svc.appStateSubscription = none ∧
    (cleanup w).1.svc.isInitialized = false ∧
    getLastKnownLocation (cleanup w).1 = none ∧
    (cleanup w).1.activeWatches = [] ∧
    (cleanup w).1.activeListeners = [] ∧
    (cleanup (cleanup w).1).1 = (cleanup w).1 ∧
    (initService (cleanup w).1 true (Delivery.pos p)).2.2 = Except.ok () ∧
    (initService (cleanup w).1 true (Delivery.pos p)).1.svc.isInitialized = true := by
  rw [cleanup_eq_clean w hw]
  exact ⟨rfl, rfl, rfl, rfl, rfl, rfl, rfl, rfl, rfl, rfl⟩

/-- C7 witness: cleaning a world that holds a watch, a subscriber, a
listener and a stored location leaves the clean state, from which
`initialize` succeeds again. -/
theorem C7_witness :
    (cleanup
        { svc :=
            { watchId := some 5
              callbacks := [{ id := "a", callback := alwaysOk 0 }]
              isInitialized := true
              appStateSubscription := some 2
              lastKnownLocation := some demoLoc }
          activeWatches := [5]
          activeListeners := [2]
          nextHandle := 6
          nextListenerHandle := 3 }).1.svc.watchId = none ∧
    getLastKnownLocation (cleanup
        { svc :=
            { watchId := some 5
              callbacks := [{ id := "a", callback := alwaysOk 0 }]
              isInitialized := true
              appStateSubscription := some 2
              lastKnownLocation := some demoLoc }
          activeWatches := [5]
          activeListeners := [2]
          nextHandle := 6
          nextListenerHandle := 3 }).1 = none ∧
    (initService (cleanup
        { svc :=
            { watchId := some 5
              callbacks := [{ id := "a", callback := alwaysOk 0 }]
              isInitialized := true
              appStateSubscription := some 2
              lastKnownLocation := some demoLoc }
          activeWatches := [5]
          activeListeners := [2]
          nextHandle := 6
          nextListenerHandle := 3 }).1 true
      (Delivery.pos { coords := { latitude := 1, longitude := 2, accuracy := 3 },
                      timestamp := 4 })).2.2 = Except.ok () := by
  have h := C7_cleanup_full_reversal
    { svc :=
        { watchId := some 5
          callbacks := [{ id := "a", callback := alwaysOk 0 }]
          isInitialized := true
          appStateSubscription := some 2
          lastKnownLocation := some demoLoc }
      activeWatches := [5]
      activeListeners := [2]
      nextHandle := 6
      nextListenerHandle := 3 }
    ⟨rfl, rfl⟩
    { coords := { latitude := 1, longitude := 2, accuracy := 3 }, timestamp := 4 }
  exact ⟨h.1, h.2.2.2.2.1, h.2.2.2.2.2.2.2.2.1⟩

/-- Helper: the registration part of `startLocationTracking` emits no
subscriber invocations. -/
lemma invocations_register (w : World) :
    invocations (startLocationTracking_register w).2 = [] := by
  rcases hw0 : w.svc.watchId with _ | h <;>
    simp [startLocationTracking_register, stopLocationTracking, hw0, invocations]

/-- Helper: the invocation trace distributes over appended event lists. -/
lemma invocations_append (a b : List Event) :
    invocations (a ++ b) = invocations a ++ invocations b := by
  simp [invocations]

/-- C8: if the continuous watch's first delivery is an error with platform
code 2, then `startLocationTracking`'s outcome rejects with a
LOCATION_UNAVAILABLE error, the GPS-settings alert is shown, no
subscriber is notified, and the last known location is unchanged. -/
theorem C8_first_delivery_unavailable (w : World) (e : GeoError)
    (he : e.code = some 2) :
    (startLocationTracking w (Delivery.err e)).2.2 =
      Except.error
        { type := LocationErrorType.LOCATION_UNAVAILABLE
          message := "Location unavailable"
          code := some 2 } ∧
    Event.alert "Location Error"
        "Unable to determine your location. Please check your GPS settings." ∈
      (startLocationTracking w (Delivery.err e)).2.1 ∧
    invocations (startLocationTracking w (Delivery.err e)).2.1 = [] ∧
    (startLocationTracking w (Delivery.err e)).1.svc.lastKnownLocation =
      w.svc.lastKnownLocation := by
  have hmap : mapGeolocationError e =
      { type := LocationErrorType.LOCATION_UNAVAILABLE
        message := "Location unavailable"
        code := some 2 } := by
    simp [mapGeolocationError, he]
  rw [startLocationTracking_err w e, hmap]
  refine ⟨rfl, ?_, ?_, (startLocationTracking_register_preserves w).2.2.2.1⟩
  · exact List.mem_append_right _ (by simp [showLocationError])
  · rw [invocations_append, invocations_register w]
    rfl

/-- C8 witness: the code-2 first delivery on a world holding a stored
location — the promise rejects as Unavailable, the GPS alert is shown,
nobody is notified, the stored location survives. -/
theorem C8_witness :
    (startLocationTracking demoWorld
        (Delivery.err { code := some 2, message := none })).2.2 =
      Except.error
        { type := LocationErrorType.LOCATION_UNAVAILABLE
          message := "Location unavailable"
          code := some 2 } ∧
    invocations (startLocationTracking demoWorld
        (Delivery.err { code := some 2, message := none })).2.1 = [] ∧
    (startLocationTracking demoWorld
        (Delivery.err { code := some 2, message := none })).1.svc.lastKnownLocation =
      demoWorld.svc.lastKnownLocation := by
  have h := C8_first_delivery_unavailable demoWorld
    { code := some 2, message := none } rfl
  exact ⟨h.1, h.2.2.1, h.2.2.2⟩

/-- C9: `updateUserLocation` builds the position from exactly the given
latitude and longitude with accuracy 0 and the call-time timestamp; a
succeeding backend call returns that same position, a failing backend
call rejects with the thrown `Error`'s message string, and any non-`Error`
thrown value rejects with the fixed fallback string — the rejection is
always a string, never a raw error object. -/
theorem C9_updateUserLocation_contract (latitude longitude : Rat) (now : Nat)
    (backend : Except BackendFailure Unit) :
    (backend = Except.ok () →
      updateUserLocation latitude longitude now backend =
        Except.ok
          { latitude := latitude, longitude := longitude,
            accuracy := 0, timestamp := now }) ∧
    (∀ m, backend = Except.error (BackendFailure.err m) →
      updateUserLocation latitude longitude now backend = Except.error m) ∧
    (∀ t, backend = Except.error (BackendFailure.raw t) →
      updateUserLocation latitude longitude now backend =
        Except.error "Failed to update location") :=
  ⟨fun h => by rw [h]; rfl,
   fun m h => by rw [h]; rfl,
   fun t h => by rw [h]; rfl⟩

/-- C9 witness: `submitLocation({latitude: 10, longitude: 20})` at call
time 5 with a succeeding backend returns the position with accuracy 0 and
timestamp 5; with a backend throwing `Error("boom")` it rejects with
"boom". -/
theorem C9_witness :
    updateUserLocation 10 20 5 (Except.ok ()) =
      Except.ok { latitude := 10, longitude := 20, accuracy := 0, timestamp := 5 } ∧
    updateUserLocation 10 20 5 (Except.error (BackendFailure.err "boom")) =
      Except.error "boom" :=
  ⟨(C9_updateUserLocation_contract 10 20 5 (Except.ok ())).1 rfl,
   (C9_updateUserLocation_contract 10 20 5
      (Except.error (BackendFailure.err "boom"))).2.1 "boom" rfl⟩
